import Mathlib

/-!
Verification of the paper-trading engine (`backend/app`): a shallow
embedding of the order matcher (`jobs/process_orders.py`), the repository
layer (`storage/repositories.py`), the market-hours checker
(`utils/market_hours.py`) and the trading-bot decision pipeline
(`jobs/trading_bot.py`), together with theorems settling the spec claims.

Modelling conventions:
* SQL `DECIMAL` money/quantity/price columns are rationals (`ℚ`);
  nullable columns are `Option`s.
* A database is a record of row lists; a SQLAlchemy `filter(...).first()`
  is `List.find?` over the row list, and an ORM in-place mutation plus
  commit is `updateFirst` (replace the first matching row).
* Python truthiness on an optional number (`if not fill_price`,
  `a or b`) is explicit: `none` and `some 0` are falsy.
* `func.current_timestamp()` assignments to `filled_at`/`cancelled_at`
  are modelled as boolean flags (`filled_at_set`, `cancelled_at_set`).
-/

namespace PaperProfit

/-- Python `str.upper()`, written as a character map so that it
evaluates by kernel reduction. -/
def pyUpper (s : String) : String := String.mk (s.data.map Char.toUpper)

/-- Replace the first element satisfying `p` by its image under `f`
(the pure counterpart of mutating the first row returned by a query). -/
def updateFirst {α : Type} (p : α → Bool) (f : α → α) : List α → List α
  | [] => []
  | x :: xs => if p x then f x :: xs else x :: updateFirst p f xs

/-- `accounts` row (storage/models.py, class Account). -/
structure Account where
  account_id : String
  cash_balance : ℚ
  is_active : Bool
  status : String
  strategy_id : Option Nat
  deriving Repr, DecidableEq

/-- `instruments` row (storage/models.py, class Instrument); only the
fields the matcher and the bot read. -/
structure Instrument where
  id : Nat
  symbol : String
  deriving Repr, DecidableEq

/-- `positions` row (storage/models.py, class Position). -/
structure Position where
  account_id : String
  symbol_id : Nat
  quantity : ℚ
  average_entry_price : ℚ
  deriving Repr, DecidableEq

/-- `orders` row (storage/models.py, class Order).  `filled_at` and
`cancelled_at` are timestamps in the source; only whether they were
stamped matters here. -/
structure Order where
  id : Nat
  account_id : String
  symbol_id : Nat
  strategy_id : Nat
  side : String
  quantity : ℚ
  price : Option ℚ
  status : String
  filled_quantity : Option ℚ
  average_fill_price : Option ℚ
  submitted_at : Nat
  filled_at_set : Bool
  cancelled_at_set : Bool
  deriving Repr, DecidableEq

/-- The relational store, with rows in table (insertion) order. -/
structure DB where
  accounts : List Account
  instruments : List Instrument
  positions : List Position
  orders : List Order
  deriving Repr, DecidableEq

/-- `YahooFinanceService.fetch_current_price`: symbol to quote payload;
`none` is "no data" (provider empty, timeout, missing `price` field). -/
def Quote : Type := String → Option ℚ

/-! ### storage/repositories.py -/

/-- `OrderRepository.get_pending_orders`: `query(Order).filter(status ==
'PENDING').all()` — no `order_by` clause, so rows come back in table
order. -/
def get_pending_orders (db : DB) : List Order :=
  db.orders.filter (fun o => o.status == "PENDING")

/-- Field updates performed by `OrderRepository.update_status` on the
fetched row. -/
def applyStatusUpdate (status : String) (filled_quantity : Option ℚ)
    (average_fill_price : Option ℚ) (o : Order) : Order :=
  let o := { o with status := status }
  let o := match filled_quantity with
    | some fq => { o with filled_quantity := some fq }
    | none => o
  let o := match average_fill_price with
    | some afp => { o with average_fill_price := some afp }
    | none => o
  if status = "FILLED" then { o with filled_at_set := true }
  else if status = "CANCELLED" then { o with cancelled_at_set := true }
  else o

/-- `OrderRepository.update_status(order_id, status, filled_quantity,
average_fill_price)`: fetch the order by id; if found, assign the new
status (and optional fill fields), stamping `filled_at` on `FILLED` and
`cancelled_at` on `CANCELLED`; return the updated row, or `None` when no
order has that id.  The source performs no check of the current status. -/
def update_status (db : DB) (order_id : Nat) (status : String)
    (filled_quantity : Option ℚ := none) (average_fill_price : Option ℚ := none) :
    DB × Option Order :=
  match db.orders.find? (fun o => o.id == order_id) with
  | none => (db, none)
  | some o =>
      let o' := applyStatusUpdate status filled_quantity average_fill_price o
      let orders' := updateFirst (fun x => x.id == order_id)
        (applyStatusUpdate status filled_quantity average_fill_price) db.orders
      ({ db with orders := orders' }, some o')

/-! ### jobs/process_orders.py -/

/-- `get_current_market_price(symbol_id, repo_factory)`: look the
instrument up; fetch a Yahoo quote for its symbol; on a missing
instrument or empty quote return the hard-coded fallback price `100.0`. -/
def get_current_market_price (db : DB) (quote : Quote) (symbol_id : Nat) : ℚ :=
  match db.instruments.find? (fun i => i.id == symbol_id) with
  | none => 100
  | some inst =>
      match quote inst.symbol with
      | some p => p
      | none => 100

/-- `calculate_weighted_average_price(qty1, price1, qty2, price2)`. -/
def calculate_weighted_average_price (qty1 price1 qty2 price2 : ℚ) : ℚ :=
  if qty1 + qty2 = 0 then 0
  else ((qty1 * price1) + (qty2 * price2)) / (qty1 + qty2)

/-- The expression `order.price or get_current_market_price(...)` in
`process_order`: the limit price when truthy (present and nonzero), else
the market price. -/
def order_fill_price (db : DB) (quote : Quote) (o : Order) : ℚ :=
  match o.price with
  | some p => if p = 0 then get_current_market_price db quote o.symbol_id else p
  | none => get_current_market_price db quote o.symbol_id

/-- The expression `fill_price = order.average_fill_price or order.price`
followed by `if not fill_price: return False` in the two position
helpers: the first truthy (nonzero) of the two, normalised to `none`
when both are falsy. -/
def resolved_fill_price (o : Order) : Option ℚ :=
  let v : Option ℚ :=
    match o.average_fill_price with
    | some x => if x = 0 then o.price else some x
    | none => o.price
  match v with
  | some x => if x = 0 then none else some x
  | none => none

/-- Predicate matching the position query of the matcher:
`filter(Position.symbol_id == order.symbol_id, Position.account_id ==
order.account_id)`. -/
def positionKey (o : Order) (p : Position) : Bool :=
  p.symbol_id == o.symbol_id && p.account_id == o.account_id

/-- `create_or_update_position_for_buy(order, repo_factory)`: resolve the
fill price (falsy ⇒ `False`); compute `total_cost`; fetch the account
(missing ⇒ `False`); on `cash_balance < total_cost` set the order
`REJECTED` and return `False`; otherwise debit the cash, then merge into
the first matching position (weighted average) or append a new one. -/
def create_or_update_position_for_buy (db : DB) (o : Order) : DB × Bool :=
  match resolved_fill_price o with
  | none => (db, false)
  | some fill_price =>
    let total_cost := o.quantity * fill_price
    match db.accounts.find? (fun a => a.account_id == o.account_id) with
    | none => (db, false)
    | some account =>
      if account.cash_balance < total_cost then
        ((update_status db o.id "REJECTED").1, false)
      else
        let accounts1 := updateFirst (fun a => a.account_id == o.account_id)
          (fun a => { a with cash_balance := a.cash_balance - total_cost })
          db.accounts
        let db1 : DB := { db with accounts := accounts1 }
        match db1.positions.find? (positionKey o) with
        | some existing =>
            let new_quantity := existing.quantity + o.quantity
            let new_avg := calculate_weighted_average_price
              existing.quantity existing.average_entry_price o.quantity fill_price
            let positions' := updateFirst (positionKey o)
              (fun p => { p with quantity := new_quantity,
                                 average_entry_price := new_avg })
              db1.positions
            ({ db1 with positions := positions' }, true)
        | none =>
            let newPos : Position :=
              { account_id := o.account_id, symbol_id := o.symbol_id,
                quantity := o.quantity, average_entry_price := fill_price }
            ({ db1 with positions := db1.positions ++ [newPos] }, true)

/-- `create_or_update_position_for_sell(order, repo_factory)`: resolve
the fill price; fetch the account; require an existing position with
`quantity ≥ order.quantity` (else return `False` — note: the status set
earlier by `process_order` is not reverted); reduce the quantity keeping
the entry price and credit the proceeds. -/
def create_or_update_position_for_sell (db : DB) (o : Order) : DB × Bool :=
  match resolved_fill_price o with
  | none => (db, false)
  | some fill_price =>
    let total_proceeds := o.quantity * fill_price
    match db.accounts.find? (fun a => a.account_id == o.account_id) with
    | none => (db, false)
    | some account =>
      match db.positions.find? (positionKey o) with
      | none => (db, false)
      | some existing =>
        if existing.quantity < o.quantity then (db, false)
        else
          let positions' := updateFirst (positionKey o)
            (fun p => { p with quantity := p.quantity - o.quantity })
            db.positions
          let accounts' := updateFirst (fun a => a.account_id == o.account_id)
            (fun a => { a with cash_balance := account.cash_balance + total_proceeds })
            db.accounts
          ({ db with positions := positions', accounts := accounts' }, true)

/-- `process_order(order, repo_factory)`: immediately set the order
`FILLED` with `filled_quantity = order.quantity` and `average_fill_price
= order.price or get_current_market_price(...)`; then dispatch on the
side to the buy/sell position helper. -/
def process_order (db : DB) (quote : Quote) (o : Order) : DB × Bool :=
  let fill := order_fill_price db quote o
  match update_status db o.id "FILLED" (some o.quantity) (some fill) with
  | (db1, none) => (db1, false)
  | (db1, some updated) =>
      if pyUpper updated.side = "BUY" then
        create_or_update_position_for_buy db1 updated
      else if pyUpper updated.side = "SELL" then
        create_or_update_position_for_sell db1 updated
      else (db1, false)

/-- Status of the order with a given id, read back from the store. -/
def order_status (db : DB) (order_id : Nat) : Option String :=
  (db.orders.find? (fun o => o.id == order_id)).map (fun o => o.status)

/-- Recorded average fill price of the order with a given id. -/
def order_avg_fill (db : DB) (order_id : Nat) : Option (Option ℚ) :=
  (db.orders.find? (fun o => o.id == order_id)).map (fun o => o.average_fill_price)

/-! ### utils/market_hours.py

Dates are proleptic-Gregorian; `toOrdinal` is `datetime.date.toordinal`
(0001-01-01 ↦ 1) and `weekday` matches `date.weekday()` (Monday = 0).
A `datetime ± timedelta(days=1)` is ordinal ± 1, and `date` equality is
ordinal equality, so the holiday list is kept as a list of ordinals. -/

/-- Gregorian leap-year rule. -/
def isLeap (y : Nat) : Bool :=
  (y % 4 == 0 && y % 100 != 0) || y % 400 == 0

/-- Days in the months before month `m` of year `y`. -/
def daysBeforeMonth (y m : Nat) : Nat :=
  let base :=
    match m with
    | 1 => 0 | 2 => 31 | 3 => 59 | 4 => 90 | 5 => 120 | 6 => 151
    | 7 => 181 | 8 => 212 | 9 => 243 | 10 => 273 | 11 => 304 | _ => 334
  if 2 < m && isLeap y then base + 1 else base

/-- `datetime.date(y, m, d).toordinal()`. -/
def toOrdinal (y m d : Nat) : Nat :=
  (365 * (y - 1) + (y - 1) / 4 + (y - 1) / 400) - (y - 1) / 100
    + daysBeforeMonth y m + d

/-- `date.weekday()` of the date with ordinal `o` (Monday = 0). -/
def ordWeekday (o : Nat) : Nat := (o - 1) % 7

/-- `date(y, m, d).weekday()` (Monday = 0, as in Python). -/
def weekday (y m d : Nat) : Nat := ordWeekday (toOrdinal y m d)

/-- `MarketHours._get_nth_weekday(year, month, weekday, n)` as an
ordinal: `first_day + (weekday - first_day.weekday()) % 7 + 7*(n-1)`
(the Python `%` on the difference of two values in 0..6 equals
`(w + 7 - wd) % 7`). -/
def get_nth_weekday (year month wd n : Nat) : Nat :=
  let first := toOrdinal year month 1
  let first_weekday := (wd + 7 - ordWeekday first) % 7
  first + first_weekday + 7 * (n - 1)

/-- `MarketHours._get_last_weekday(year, month, weekday)` as an ordinal:
take the last day of the month; `days_to_subtract = (last.weekday() -
weekday) % 7`, replaced by 7 when it is 0; subtract. -/
def get_last_weekday (year month wd : Nat) : Nat :=
  let next_month := if month == 12 then toOrdinal (year + 1) 1 1
                    else toOrdinal year (month + 1) 1
  let last_day := next_month - 1
  let dts := (ordWeekday last_day + 7 - wd) % 7
  let dts := if dts == 0 then 7 else dts
  last_day - dts

/-- The holiday list built by `MarketHours._is_market_holiday` for a
year: the nine base holidays, then, iterating over a copy, a Friday
observance appended for each Saturday holiday and a Monday observance
for each Sunday holiday. -/
def holidaysForYear (year : Nat) : List Nat :=
  let base : List Nat :=
    [ toOrdinal year 1 1,
      get_nth_weekday year 1 0 3,
      get_nth_weekday year 2 0 3,
      get_last_weekday year 5 0,
      toOrdinal year 6 19,
      toOrdinal year 7 4,
      get_nth_weekday year 9 0 1,
      get_nth_weekday year 11 3 4,
      toOrdinal year 12 25 ]
  base ++ base.filterMap (fun h =>
    if ordWeekday h == 5 then some (h - 1)
    else if ordWeekday h == 6 then some (h + 1)
    else none)

/-- `MarketHours._is_market_holiday(date)`. -/
def is_market_holiday (y m d : Nat) : Bool :=
  (holidaysForYear y).contains (toOrdinal y m d)

/-- `time(9, 30) <= t <= time(16, 0)` on an (hour, minute) wall-clock
pair. -/
def withinRegularHours (hour minute : Nat) : Bool :=
  (9 < hour || (hour == 9 && 30 ≤ minute)) &&
  (hour < 16 || (hour == 16 && minute == 0))

/-- `MarketHours.is_market_open(check_time)` on an US/Eastern wall-clock
instant: weekday (Mon–Fri), not a holiday, within 09:30–16:00. -/
def is_market_open (y m d hour minute : Nat) : Bool :=
  if 5 ≤ weekday y m d then false
  else if is_market_holiday y m d then false
  else withinRegularHours hour minute

/-! ### jobs/trading_bot.py

The strategy parameter dict (already merged with the defaults by
`_parse_strategy_parameters`) is modelled as a record: each field is the
value the code reads with `strategy_params.get(key, default)`;
`underlying_quality_required` is the truthiness of that entry,
`has_valuation_param` is `any(param in strategy_params for param in
valuation_params)` and `has_fundamental_params` is
`_has_fundamental_parameters(strategy_params)`. -/

structure StrategyParams where
  min_volume : ℚ
  rsi_oversold : ℚ
  rsi_overbought : ℚ
  min_quality_score : ℚ
  underlying_quality_required : Bool
  has_valuation_param : Bool
  has_fundamental_params : Bool
  max_position_size_percent : ℚ
  max_positions : Nat
  deriving Repr, DecidableEq

/-- The indicator dict read by `_generate_trading_signal`; every entry
may be absent (`indicators.get(...)`). -/
structure TechIndicators where
  rsi : Option ℚ
  price_trend : Option String
  is_overbought : Option Bool
  is_oversold : Option Bool
  is_price_near_support : Option Bool
  is_price_near_resistance : Option Bool
  deriving Repr, DecidableEq

/-- The fundamental dict returned by
`fundamental_functions.get_all_parameters`. -/
structure FundamentalParams where
  quality_score : Option ℚ
  meets_quality_requirement : Option Bool
  meets_valuation_requirement : Option Bool
  deriving Repr, DecidableEq

/-- The `market_data` dict fields the signal generator reads. -/
structure MarketBar where
  close : ℚ
  volume : ℚ
  deriving Repr, DecidableEq

/-- The signal dict built by `_generate_trading_signal`; keys absent
from a branch's dict literal are `none`. -/
structure SignalR where
  action : String
  reason : String
  price : Option ℚ
  confidence : Option ℚ
  signal_score : Option Int
  deriving Repr, DecidableEq

/-- Python truthiness of an optional boolean (`if is_oversold:`). -/
def optTruthy : Option Bool → Bool
  | some b => b
  | none => false

/-- All-absent fundamentals, used when the strategy has no fundamental
parameter keys and `get_all_parameters` is never called. -/
def noFundamentals : FundamentalParams :=
  { quality_score := none, meets_quality_requirement := none,
    meets_valuation_requirement := none }

/-- The composite `signal_score` accumulation of
`_generate_trading_signal`, one summand per `if` block, in source order.
`if rsi:` is truthiness (absent or 0.0 skips the RSI block). -/
def signal_score (ind : TechIndicators) (fund : FundamentalParams)
    (params : StrategyParams) : Int :=
  let sRsi : Int :=
    match ind.rsi with
    | some r =>
        if r = 0 then 0
        else if r < params.rsi_oversold then 2
        else if params.rsi_overbought < r then -2
        else 0
    | none => 0
  let sTrend : Int :=
    if ind.price_trend = some "BULLISH" then 1
    else if ind.price_trend = some "BEARISH" then -1
    else 0
  let sOversold : Int := if optTruthy ind.is_oversold then 1 else 0
  let sOverbought : Int := if optTruthy ind.is_overbought then -1 else 0
  let sQuality : Int :=
    match fund.quality_score with
    | some q => if params.min_quality_score < q then 1 else 0
    | none => 0
  let sMeetsQuality : Int :=
    if fund.meets_quality_requirement ≠ none && params.underlying_quality_required then
      (if optTruthy fund.meets_quality_requirement then 1 else 0)
    else 0
  let sValuation : Int :=
    if fund.meets_valuation_requirement ≠ none && params.has_valuation_param then
      (if optTruthy fund.meets_valuation_requirement then 1 else 0)
    else 0
  let sSupport : Int := if optTruthy ind.is_price_near_support then 1 else 0
  let sResistance : Int := if optTruthy ind.is_price_near_resistance then -1 else 0
  sRsi + sTrend + sOversold + sOverbought + sQuality + sMeetsQuality +
    sValuation + sSupport + sResistance

/-- The `reasons` list accumulated alongside the score (the numeric
interpolations of the f-strings are omitted from the tags). -/
def signal_reasons (ind : TechIndicators) (fund : FundamentalParams)
    (params : StrategyParams) : List String :=
  (match ind.rsi with
    | some r =>
        if r = 0 then []
        else if r < params.rsi_oversold then ["RSI oversold"]
        else if params.rsi_overbought < r then ["RSI overbought"]
        else []
    | none => []) ++
  (if ind.price_trend = some "BULLISH" then ["Bullish price trend"]
   else if ind.price_trend = some "BEARISH" then ["Bearish price trend"]
   else []) ++
  (if optTruthy ind.is_oversold then ["Oversold condition"] else []) ++
  (if optTruthy ind.is_overbought then ["Overbought condition"] else []) ++
  (match fund.quality_score with
    | some q => if params.min_quality_score < q then ["High quality score"] else []
    | none => []) ++
  (if fund.meets_quality_requirement ≠ none && params.underlying_quality_required then
     (if optTruthy fund.meets_quality_requirement then ["Meets quality requirements"] else [])
   else []) ++
  (if fund.meets_valuation_requirement ≠ none && params.has_valuation_param then
     (if optTruthy fund.meets_valuation_requirement then ["Good valuation"] else [])
   else []) ++
  (if optTruthy ind.is_price_near_support then ["Price near support level"] else []) ++
  (if optTruthy ind.is_price_near_resistance then ["Price near resistance level"] else [])

/-- `TradingBot._generate_trading_signal`: the volume filter (strict
`<`), then the composite score; `score ≥ 3 ⇒ BUY`, `score ≤ −3 ⇒ SELL`,
else `HOLD`.  Fundamentals are fetched only when the strategy has
fundamental parameter keys (`fundRaw` is what `get_all_parameters`
would return). -/
def generate_trading_signal (md : MarketBar) (ind : TechIndicators)
    (fundRaw : FundamentalParams) (params : StrategyParams) : SignalR :=
  if md.volume < params.min_volume then
    { action := "HOLD", reason := "Low volume",
      price := none, confidence := none, signal_score := none }
  else
    let fund := if params.has_fundamental_params then fundRaw else noFundamentals
    let score := signal_score ind fund params
    let reasons := signal_reasons ind fund params
    if 3 ≤ score then
      { action := "BUY", reason := String.intercalate ", " reasons,
        price := some md.close,
        confidence := some (min (9/10 : ℚ) ((score : ℚ) / 10 + 1/2)),
        signal_score := some score }
    else if score ≤ -3 then
      { action := "SELL", reason := String.intercalate ", " reasons,
        price := some md.close,
        confidence := some (min (9/10 : ℚ) ((|score| : ℚ) / 10 + 1/2)),
        signal_score := some score }
    else
      { action := "HOLD",
        reason := if reasons.isEmpty then "No clear signal"
                  else "Mixed signals: " ++ String.intercalate ", " reasons,
        price := none, confidence := none, signal_score := some score }

/-- Insert-or-overwrite on the symbol-keyed dict
(`positions[instrument.symbol] = position`). -/
def dictUpsert (l : List (String × Position)) (k : String) (v : Position) :
    List (String × Position) :=
  if l.any (fun kv => kv.1 == k) then
    l.map (fun kv => if kv.1 == k then (k, v) else kv)
  else l ++ [(k, v)]

/-- Dict lookup (`current_positions.get(symbol)`). -/
def dictGet (l : List (String × Position)) (k : String) : Option Position :=
  (l.find? (fun kv => kv.1 == k)).map (fun kv => kv.2)

/-- `TradingBot._get_account_positions(account_id)`: query the positions
with `account_id == account_id` and `quantity > 0`, then index by the
symbol of each position's instrument (positions whose instrument is
missing are dropped). -/
def get_account_positions (db : DB) (account_id : String) :
    List (String × Position) :=
  let rows := db.positions.filter
    (fun p => p.account_id == account_id && decide (0 < p.quantity))
  rows.foldl
    (fun acc p =>
      match db.instruments.find? (fun i => i.id == p.symbol_id) with
      | some inst => dictUpsert acc inst.symbol p
      | none => acc)
    []

/-- Python `int()` truncation toward zero on a rational. -/
def pyInt (q : ℚ) : Int := if 0 ≤ q then ⌊q⌋ else -⌊-q⌋

/-- `TradingBot._calculate_position_size(account, price, strategy_params)`:
`int(min(cash·pct/100 / price, cash / price))`. -/
def calculate_position_size (account : Account) (price : ℚ)
    (params : StrategyParams) : Int :=
  let max_position_value := account.cash_balance * params.max_position_size_percent / 100
  let max_shares := max_position_value / price
  let available_shares := account.cash_balance / price
  pyInt (min max_shares available_shares)

/-- The durable writes `_execute_buy_order` / `_execute_sell_order`
perform, in program order. -/
inductive BotEvent where
  | orderCreated (account_id : String) (symbol_id strategy_id : Nat)
      (side : String) (quantity : ℚ) (price : ℚ)
  | signalCreated (symbol_id strategy_id : Nat) (signal_type : String) (price : ℚ)
  deriving Repr, DecidableEq

/-- `TradingBot._execute_buy_order`: skip when the (quantity > 0) index
already has the symbol; compute the position size (non-positive ⇒ skip);
enforce `len(current_positions) >= max_positions`; then create the
`PENDING` `MARKET` order and afterwards persist the `BUY`
`TradingSignal`. -/
def execute_buy_order (account : Account) (strategy_id : Nat)
    (instrument : Instrument) (signal : SignalR) (params : StrategyParams)
    (current_positions : List (String × Position)) : List BotEvent :=
  let current_price := signal.price.getD 0
  match dictGet current_positions instrument.symbol with
  | some _ => []
  | none =>
    let position_size := calculate_position_size account current_price params
    if position_size ≤ 0 then []
    else if params.max_positions ≤ current_positions.length then []
    else
      [ BotEvent.orderCreated account.account_id instrument.id strategy_id
          "BUY" (position_size : ℚ) current_price,
        BotEvent.signalCreated instrument.id strategy_id "BUY" current_price ]

/-- `TradingBot._execute_sell_order`: require an indexed position with
positive quantity; create the `PENDING` `MARKET` order for the entire
quantity and afterwards persist the `SELL` `TradingSignal`. -/
def execute_sell_order (account : Account) (strategy_id : Nat)
    (instrument : Instrument) (signal : SignalR) ( _params : StrategyParams)
    (current_positions : List (String × Position)) : List BotEvent :=
  let current_price := signal.price.getD 0
  match dictGet current_positions instrument.symbol with
  | none => []
  | some existing =>
    if existing.quantity ≤ 0 then []
    else
      [ BotEvent.orderCreated account.account_id instrument.id strategy_id
          "SELL" existing.quantity current_price,
        BotEvent.signalCreated instrument.id strategy_id "SELL" current_price ]

/-- Whether some signal write strictly precedes some order write in a
trace of durable writes. -/
def signal_precedes_order : List BotEvent → Bool
  | [] => false
  | BotEvent.orderCreated _ _ _ _ _ _ :: rest => signal_precedes_order rest
  | BotEvent.signalCreated _ _ _ _ :: rest =>
      rest.any (fun e => match e with
        | BotEvent.orderCreated _ _ _ _ _ _ => true
        | _ => false) || signal_precedes_order rest

/-- Whether a trace contains an order write. -/
def has_order_event (tr : List BotEvent) : Bool :=
  tr.any (fun e => match e with
    | BotEvent.orderCreated _ _ _ _ _ _ => true
    | _ => false)

/-! ### Helper lemmas -/

theorem find?_updateFirst {α : Type} (p : α → Bool) (f : α → α) :
    ∀ (l : List α) (a : α), l.find? p = some a → p (f a) = true →
      (updateFirst p f l).find? p = some (f a) := by
  intro l
  induction l with
  | nil => intro a h _; simp [List.find?] at h
  | cons x xs ih =>
      intro a h hp
      by_cases hx : p x
      · rw [List.find?_cons_of_pos _ hx] at h
        injection h with h
        subst h
        simp [updateFirst, hx, List.find?_cons_of_pos _ hp]
      · rw [List.find?_cons_of_neg _ (by simpa using hx)] at h
        simp only [updateFirst, if_neg hx]
        rw [List.find?_cons_of_neg _ (by simpa using hx)]
        exact ih a h hp

theorem applyStatusUpdate_fields (status : String) (fq afp : Option ℚ) (o : Order) :
    (applyStatusUpdate status fq afp o).id = o.id ∧
    (applyStatusUpdate status fq afp o).status = status ∧
    (applyStatusUpdate status fq afp o).side = o.side ∧
    (applyStatusUpdate status fq afp o).quantity = o.quantity ∧
    (applyStatusUpdate status fq afp o).price = o.price ∧
    (applyStatusUpdate status fq afp o).account_id = o.account_id ∧
    (applyStatusUpdate status fq afp o).symbol_id = o.symbol_id := by
  unfold applyStatusUpdate
  cases fq <;> cases afp <;> split_ifs <;> simp

theorem applyStatusUpdate_afp (status : String) (fq : Option ℚ) (x : ℚ) (o : Order) :
    (applyStatusUpdate status fq (some x) o).average_fill_price = some x := by
  unfold applyStatusUpdate
  cases fq <;> split_ifs <;> simp

theorem mem_dictUpsert (l : List (String × Position)) (k : String) (v : Position)
    (kv : String × Position) (h : kv ∈ dictUpsert l k v) :
    kv ∈ l ∨ kv.2 = v := by
  unfold dictUpsert at h
  split at h
  · rcases List.mem_map.mp h with ⟨kv', hkv', heq⟩
    by_cases hk : (kv'.1 == k) = true
    · rw [if_pos hk] at heq; right; rw [← heq]
    · rw [if_neg hk] at heq; left; rw [← heq]; exact hkv'
  · rcases List.mem_append.mp h with h' | h'
    · left; exact h'
    · right; simp at h'; rw [h']

theorem applyStatusUpdate_filled_at (fq afp : Option ℚ) (o : Order) :
    (applyStatusUpdate "FILLED" fq afp o).filled_at_set = true := by
  unfold applyStatusUpdate
  cases fq <;> cases afp <;> simp

theorem applyStatusUpdate_cancelled_at (fq afp : Option ℚ) (o : Order) :
    (applyStatusUpdate "CANCELLED" fq afp o).cancelled_at_set = true := by
  unfold applyStatusUpdate
  cases fq <;> cases afp <;> split_ifs with h1 h2 <;>
    first
      | rfl
      | exact absurd h1 (by decide)
      | exact absurd h2 (by decide)

theorem update_status_eq (db : DB) (oid : Nat) (st : String) (fq afp : Option ℚ)
    (o : Order) (hfind : db.orders.find? (fun x => x.id == oid) = some o) :
    update_status db oid st fq afp =
      ({ db with orders := (updateFirst (fun x => x.id == oid)
           (applyStatusUpdate st fq afp) db.orders) },
       some (applyStatusUpdate st fq afp o)) := by
  unfold update_status
  rw [hfind]

theorem buy_insufficient_branch (db : DB) (o : Order) (acct : Account) (fp : ℚ)
    (hres : resolved_fill_price o = some fp)
    (hacct : db.accounts.find? (fun a => a.account_id == o.account_id) = some acct)
    (hcash : acct.cash_balance < o.quantity * fp) :
    create_or_update_position_for_buy db o =
      ((update_status db o.id "REJECTED").1, false) := by
  unfold create_or_update_position_for_buy
  rw [hres, hacct]
  dsimp only
  rw [if_pos hcash]

theorem buy_sufficient_orders (db : DB) (o : Order) (acct : Account) (fp : ℚ)
    (hres : resolved_fill_price o = some fp)
    (hacct : db.accounts.find? (fun a => a.account_id == o.account_id) = some acct)
    (hcash : ¬ acct.cash_balance < o.quantity * fp) :
    (create_or_update_position_for_buy db o).2 = true ∧
    (create_or_update_position_for_buy db o).1.orders = db.orders := by
  unfold create_or_update_position_for_buy
  rw [hres, hacct]
  dsimp only
  rw [if_neg hcash]
  cases h : (db.positions.find? (positionKey o)) with
  | none => simp [h]
  | some existing => simp [h]

theorem process_order_buy (db : DB) (quote : Quote) (o : Order)
    (hfind : db.orders.find? (fun x => x.id == o.id) = some o)
    (hside : o.side = "BUY") :
    process_order db quote o =
      create_or_update_position_for_buy
        { db with orders := (updateFirst (fun x => x.id == o.id)
            (applyStatusUpdate "FILLED" (some o.quantity)
              (some (order_fill_price db quote o))) db.orders) }
        (applyStatusUpdate "FILLED" (some o.quantity)
          (some (order_fill_price db quote o)) o) := by
  unfold process_order
  dsimp only
  rw [update_status_eq db o.id "FILLED" (some o.quantity)
    (some (order_fill_price db quote o)) o hfind]
  dsimp only
  rw [(applyStatusUpdate_fields "FILLED" (some o.quantity)
    (some (order_fill_price db quote o)) o).2.2.1, hside]
  have h2 : pyUpper "BUY" = "BUY" := by decide
  rw [h2, if_pos rfl]

/-- C2: a PENDING BUY order whose cost `quantity × fill price` exceeds
the account's cash balance ends in terminal status `REJECTED`, the cash
balance is untouched and no position is created or modified.  (The
matcher does transiently set the order `FILLED` before the funds check;
the final persisted status is `REJECTED`.) -/
theorem claim2_insufficient_funds_rejected
    (db : DB) (quote : Quote) (o : Order) (acct : Account)
    (hfind : db.orders.find? (fun x => x.id == o.id) = some o)
    (hside : o.side = "BUY")
    (hacct : db.accounts.find? (fun a => a.account_id == o.account_id) = some acct)
    (hfp : 0 < order_fill_price db quote o)
    (hcash : acct.cash_balance < o.quantity * order_fill_price db quote o) :
    (process_order db quote o).2 = false ∧
    order_status (process_order db quote o).1 o.id = some "REJECTED" ∧
    (process_order db quote o).1.accounts = db.accounts ∧
    (process_order db quote o).1.positions = db.positions := by
  have hfields := applyStatusUpdate_fields "FILLED" (some o.quantity)
    (some (order_fill_price db quote o)) o
  have hne : order_fill_price db quote o ≠ 0 := (ne_of_lt hfp).symm
  rw [process_order_buy db quote o hfind hside]
  have hres : resolved_fill_price (applyStatusUpdate "FILLED" (some o.quantity)
      (some (order_fill_price db quote o)) o) = some (order_fill_price db quote o) := by
    unfold resolved_fill_price
    rw [applyStatusUpdate_afp]
    simp [hne]
  have hacct1 :
      (DB.accounts { db with orders := (updateFirst (fun x => x.id == o.id)
          (applyStatusUpdate "FILLED" (some o.quantity)
            (some (order_fill_price db quote o))) db.orders) }).find?
        (fun a => a.account_id ==
          (applyStatusUpdate "FILLED" (some o.quantity)
            (some (order_fill_price db quote o)) o).account_id) = some acct := by
    rw [hfields.2.2.2.2.2.1]
    exact hacct
  have hcash1 : acct.cash_balance <
      (applyStatusUpdate "FILLED" (some o.quantity)
        (some (order_fill_price db quote o)) o).quantity *
        order_fill_price db quote o := by
    rw [hfields.2.2.2.1]; exact hcash
  rw [buy_insufficient_branch _ _ acct _ hres hacct1 hcash1]
  have hbeq : ∀ x : Order, x.id = o.id → (x.id == o.id) = true := by
    intro x hx; rw [hx]; simp
  have hfind1 :
      (updateFirst (fun x => x.id == o.id)
        (applyStatusUpdate "FILLED" (some o.quantity)
          (some (order_fill_price db quote o))) db.orders).find?
        (fun x => x.id == o.id) =
      some (applyStatusUpdate "FILLED" (some o.quantity)
        (some (order_fill_price db quote o)) o) :=
    find?_updateFirst _ _ db.orders o hfind (hbeq _ hfields.1)
  rw [hfields.1]
  rw [update_status_eq _ o.id "REJECTED" none none _ hfind1]
  have hfields2 := applyStatusUpdate_fields "REJECTED" none none
    (applyStatusUpdate "FILLED" (some o.quantity)
      (some (order_fill_price db quote o)) o)
  refine ⟨rfl, ?_, rfl, rfl⟩
  unfold order_status
  rw [find?_updateFirst _ _ _ _ hfind1 (hbeq _ (hfields2.1.trans hfields.1))]
  rw [Option.map_some']
  rw [hfields2.2.1]

/-- C7: a BUY fill against an existing `(account, instrument)` position
with quantity `q0 > 0` and entry price `p0` updates the position to
quantity `q0 + qty` and average entry price exactly
`(q0·p0 + qty·fill_price) / (q0 + qty)`; with no existing position, a
new `(qty, fill_price)` position row is appended. -/
theorem claim7_buy_weighted_average
    (db : DB) (o : Order) (acct : Account) (fp : ℚ)
    (hres : resolved_fill_price o = some fp)
    (hacct : db.accounts.find? (fun a => a.account_id == o.account_id) = some acct)
    (hcash : ¬ acct.cash_balance < o.quantity * fp)
    (hq : 0 < o.quantity) :
    (∀ existing, db.positions.find? (positionKey o) = some existing →
      0 < existing.quantity →
      (create_or_update_position_for_buy db o).2 = true ∧
      (create_or_update_position_for_buy db o).1.positions.find? (positionKey o) =
        some { existing with
               quantity := existing.quantity + o.quantity,
               average_entry_price :=
                 (existing.quantity * existing.average_entry_price + o.quantity * fp) /
                   (existing.quantity + o.quantity) }) ∧
    (db.positions.find? (positionKey o) = none →
      (create_or_update_position_for_buy db o).2 = true ∧
      (create_or_update_position_for_buy db o).1.positions =
        db.positions ++ [{ account_id := o.account_id, symbol_id := o.symbol_id,
                           quantity := o.quantity, average_entry_price := fp }]) := by
  constructor
  · intro existing hpos hq0
    unfold create_or_update_position_for_buy
    rw [hres, hacct]
    dsimp only
    rw [if_neg hcash]
    rw [hpos]
    dsimp only
    refine ⟨rfl, ?_⟩
    have hkey : positionKey o existing = true := by
      have h := List.find?_some hpos
      simpa using h
    have hkey2 : positionKey o
        { existing with
          quantity := existing.quantity + o.quantity,
          average_entry_price := (calculate_weighted_average_price
            existing.quantity existing.average_entry_price o.quantity fp) } = true := by
      unfold positionKey at hkey ⊢
      simpa using hkey
    rw [find?_updateFirst (positionKey o)
      (fun p => { p with
                  quantity := existing.quantity + o.quantity,
                  average_entry_price := (calculate_weighted_average_price
                    existing.quantity existing.average_entry_price o.quantity fp) })
      db.positions existing hpos hkey2]
    have hsum : existing.quantity + o.quantity ≠ 0 := ne_of_gt (add_pos hq0 hq)
    unfold calculate_weighted_average_price
    rw [if_neg hsum]
  · intro hpos
    unfold create_or_update_position_for_buy
    rw [hres, hacct]
    dsimp only
    rw [if_neg hcash, hpos]
    exact ⟨rfl, rfl⟩

/-! ### Concrete fixtures used by counterexamples and witnesses -/

/-- A filled order, as left behind by the matcher. -/
def oFilled : Order :=
  { id := 1, account_id := "acct-1", symbol_id := 1, strategy_id := 1,
    side := "BUY", quantity := 1, price := some 50, status := "FILLED",
    filled_quantity := some 1, average_fill_price := some 50,
    submitted_at := 3, filled_at_set := true, cancelled_at_set := false }

/-- Store holding only `oFilled`. -/
def dbFilled : DB :=
  { accounts := [], instruments := [], positions := [], orders := [oFilled] }

/-! ### Claim theorems -/

/-- C1 counterexample: `update_status` performs no transition
validation.  On a store whose only order is already in the terminal
state `FILLED`, requesting `REJECTED` succeeds and overwrites the
status, so a terminal state is left and the out-of-order transition
`FILLED → REJECTED` is not rejected. -/
theorem claim1_counterexample :
    order_status dbFilled 1 = some "FILLED" ∧
    order_status (update_status dbFilled 1 "REJECTED").1 1 = some "REJECTED" ∧
    (update_status dbFilled 1 "REJECTED").2 ≠ none := by decide

/-- C1 (amended): `OrderRepository.update_status` sets the requested
status unconditionally — whatever the current status of the order with
the given id, the stored status becomes the requested one (stamping
`filled_at` on `FILLED` and `cancelled_at` on `CANCELLED`); no
out-of-order transition is rejected, so a status sequence such as
`PENDING → FILLED → REJECTED` is reachable. -/
theorem claim1_update_status_unconditional (db : DB) (oid : Nat) (st : String)
    (fq afp : Option ℚ) (o : Order)
    (hfind : db.orders.find? (fun x => x.id == oid) = some o) :
    ∃ o', (update_status db oid st fq afp).2 = some o' ∧
      o'.status = st ∧ o'.id = o.id ∧
      order_status (update_status db oid st fq afp).1 oid = some st ∧
      (st = "FILLED" → o'.filled_at_set = true) ∧
      (st = "CANCELLED" → o'.cancelled_at_set = true) := by
  have hid : (o.id == oid) = true := by
    have h := List.find?_some hfind
    simpa using h
  have hfields := applyStatusUpdate_fields st fq afp o
  refine ⟨applyStatusUpdate st fq afp o, ?_, hfields.2.1, hfields.1, ?_, ?_, ?_⟩
  · unfold update_status; rw [hfind]
  · unfold update_status order_status
    rw [hfind]
    have hp : ((applyStatusUpdate st fq afp o).id == oid) = true := by
      rw [hfields.1]; exact hid
    simp only
    rw [find?_updateFirst _ _ _ _ hfind hp]
    simp [hfields.2.1]
  · intro hst; rw [hst]; exact applyStatusUpdate_filled_at fq afp o
  · intro hst; rw [hst]; exact applyStatusUpdate_cancelled_at fq afp o

/-- C1 witness: the amended theorem applied to the concrete store
`dbFilled`, moving the already-`FILLED` order to `REJECTED`. -/
theorem claim1_witness :
    ∃ o', (update_status dbFilled 1 "REJECTED" none none).2 = some o' ∧
      o'.status = "REJECTED" ∧ o'.id = oFilled.id ∧
      order_status (update_status dbFilled 1 "REJECTED" none none).1 1 =
        some "REJECTED" ∧
      ("REJECTED" = "FILLED" → o'.filled_at_set = true) ∧
      ("REJECTED" = "CANCELLED" → o'.cancelled_at_set = true) :=
  claim1_update_status_unconditional dbFilled 1 "REJECTED" none none oFilled
    (by decide)

/-- Pending SELL order for 5 shares with no backing position. -/
def oSellNoPos : Order :=
  { id := 31, account_id := "acct-1", symbol_id := 1, strategy_id := 1,
    side := "SELL", quantity := 5, price := some 10, status := "PENDING",
    filled_quantity := none, average_fill_price := none,
    submitted_at := 3, filled_at_set := false, cancelled_at_set := false }

/-- Account with 100 in cash. -/
def acct100 : Account :=
  { account_id := "acct-1", cash_balance := 100, is_active := true,
    status := "active", strategy_id := some 1 }

/-- A listed instrument. -/
def instAAPL : Instrument := { id := 1, symbol := "AAPL" }

/-- Store with the uncovered SELL order and no position. -/
def dbSellNoPos : DB :=
  { accounts := [acct100], instruments := [instAAPL], positions := [],
    orders := [oSellNoPos] }

/-- Store where the position (2 shares) is smaller than the SELL
quantity (5 shares). -/
def dbSellShort : DB :=
  { accounts := [acct100], instruments := [instAAPL],
    positions := [{ account_id := "acct-1", symbol_id := 1, quantity := 2,
                    average_entry_price := 90 }],
    orders := [oSellNoPos] }

/-- Provider quoting 10 for every symbol. -/
def quote10 : Quote := fun _ => some 10

/-- C3: a PENDING SELL order with no backing position (or with a
position smaller than the order quantity) leaves cash and positions
unchanged, but the matcher marks the order `FILLED` — not `PENDING` as
claimed — because `process_order` sets `FILLED` before the position
check and the failure path never reverts it. -/
theorem claim3_sell_failure_marked_filled :
    ((process_order dbSellNoPos quote10 oSellNoPos).2 = false ∧
     order_status (process_order dbSellNoPos quote10 oSellNoPos).1 31 =
       some "FILLED" ∧
     (process_order dbSellNoPos quote10 oSellNoPos).1.accounts =
       dbSellNoPos.accounts ∧
     (process_order dbSellNoPos quote10 oSellNoPos).1.positions =
       dbSellNoPos.positions) ∧
    ((process_order dbSellShort quote10 oSellNoPos).2 = false ∧
     order_status (process_order dbSellShort quote10 oSellNoPos).1 31 =
       some "FILLED" ∧
     (process_order dbSellShort quote10 oSellNoPos).1.accounts =
       dbSellShort.accounts ∧
     (process_order dbSellShort quote10 oSellNoPos).1.positions =
       dbSellShort.positions) := by decide

/-- Pending order submitted late but inserted first. -/
def oSubmittedLate : Order :=
  { id := 51, account_id := "acct-1", symbol_id := 1, strategy_id := 1,
    side := "BUY", quantity := 1, price := some 10, status := "PENDING",
    filled_quantity := none, average_fill_price := none,
    submitted_at := 10, filled_at_set := false, cancelled_at_set := false }

/-- Pending order submitted earlier but inserted second. -/
def oSubmittedEarly : Order :=
  { id := 52, account_id := "acct-1", symbol_id := 1, strategy_id := 1,
    side := "BUY", quantity := 1, price := some 10, status := "PENDING",
    filled_quantity := none, average_fill_price := none,
    submitted_at := 5, filled_at_set := false, cancelled_at_set := false }

/-- Store with the two pending orders in insertion (row) order. -/
def dbTwoPending : DB :=
  { accounts := [], instruments := [],
    positions := [], orders := [oSubmittedLate, oSubmittedEarly] }

/-- C5 counterexample: `get_pending_orders` carries no `order_by`
clause, so the matcher drains orders in table row order.  Here the order
with the later `submitted_at` (10) is processed before the one submitted
earlier (5): processing is not FIFO by `submitted_at`. -/
theorem claim5_counterexample :
    get_pending_orders dbTwoPending = [oSubmittedLate, oSubmittedEarly] ∧
    oSubmittedEarly.submitted_at < oSubmittedLate.submitted_at := by decide

/-- C5 (amended): in each cycle the matcher processes exactly the
`PENDING` orders, in the row (insertion) order of the orders table — the
query has no ordering clause — rather than FIFO by `submitted_at`. -/
theorem claim5_row_order (db : DB) :
    (get_pending_orders db).Sublist db.orders ∧
    ∀ o ∈ get_pending_orders db, o.status = "PENDING" := by
  constructor
  · exact List.filter_sublist _
  · intro o ho
    have h := List.mem_filter.mp ho
    simpa using h.2

/-- C5 witness: the amended theorem applied to the concrete store. -/
theorem claim5_witness : oSubmittedLate.status = "PENDING" :=
  (claim5_row_order dbTwoPending).2 oSubmittedLate (by decide)

/-- Account with 40 in cash (the spec's insufficient-funds scenario). -/
def acct40 : Account :=
  { account_id := "acct-1", cash_balance := 40, is_active := true,
    status := "active", strategy_id := some 1 }

/-- Pending BUY order for 1 share at limit price 50. -/
def oBuy50 : Order :=
  { id := 21, account_id := "acct-1", symbol_id := 1, strategy_id := 1,
    side := "BUY", quantity := 1, price := some 50, status := "PENDING",
    filled_quantity := none, average_fill_price := none,
    submitted_at := 3, filled_at_set := false, cancelled_at_set := false }

/-- Store for the insufficient-funds scenario: cash 40, order 1 × 50. -/
def dbBuy50 : DB :=
  { accounts := [acct40], instruments := [instAAPL], positions := [],
    orders := [oBuy50] }

/-- C2 witness: the spec's concrete scenario — cash 40, BUY 1 share at
50 — processed by the matcher: terminal status `REJECTED`, cash and
positions unchanged. -/
theorem claim2_witness :
    (process_order dbBuy50 quote10 oBuy50).2 = false ∧
    order_status (process_order dbBuy50 quote10 oBuy50).1 oBuy50.id =
      some "REJECTED" ∧
    (process_order dbBuy50 quote10 oBuy50).1.accounts = dbBuy50.accounts ∧
    (process_order dbBuy50 quote10 oBuy50).1.positions = dbBuy50.positions :=
  claim2_insufficient_funds_rejected dbBuy50 quote10 oBuy50 acct40
    (by decide) (by decide) (by decide)
    (by norm_num [order_fill_price, oBuy50, dbBuy50])
    (by norm_num [order_fill_price, oBuy50, dbBuy50, acct40])

/-- Existing position of 10 shares at entry price 100. -/
def pos10at100 : Position :=
  { account_id := "acct-1", symbol_id := 1, quantity := 10,
    average_entry_price := 100 }

/-- Filled BUY order for 5 shares at 120 (as `process_order` leaves it
before the position merge). -/
def oBuy120 : Order :=
  { id := 71, account_id := "acct-1", symbol_id := 1, strategy_id := 1,
    side := "BUY", quantity := 5, price := some 120, status := "FILLED",
    filled_quantity := some 5, average_fill_price := some 120,
    submitted_at := 3, filled_at_set := true, cancelled_at_set := false }

/-- Account with ample cash. -/
def acctRich : Account :=
  { account_id := "acct-1", cash_balance := 10000, is_active := true,
    status := "active", strategy_id := some 1 }

/-- Store for the weighted-average merge scenario. -/
def dbMerge : DB :=
  { accounts := [acctRich], instruments := [instAAPL],
    positions := [pos10at100], orders := [oBuy120] }

/-- C7 witness: merging the spec's concrete scenario — position
(10, 100), BUY 5 at 120 — yields (15, 320/3 = 106.666…). -/
theorem claim7_witness :
    (create_or_update_position_for_buy dbMerge oBuy120).2 = true ∧
    (create_or_update_position_for_buy dbMerge oBuy120).1.positions.find?
        (positionKey oBuy120) =
      some { account_id := "acct-1", symbol_id := 1, quantity := 15,
             average_entry_price := 320 / 3 } := by
  have h := (claim7_buy_weighted_average dbMerge oBuy120 acctRich 120
    (by decide) (by decide)
    (by norm_num [acctRich, oBuy120]) (by decide)).1 pos10at100
    (by decide) (by decide)
  refine ⟨h.1, ?_⟩
  rw [h.2]
  simp only [pos10at100, oBuy120, Option.some.injEq, Position.mk.injEq]
  norm_num

/-- Provider with no data for any symbol. -/
def quoteEmpty : Quote := fun _ => none

/-- Pending market BUY order with no limit price. -/
def oBuyNoLimit : Order :=
  { id := 41, account_id := "acct-1", symbol_id := 1, strategy_id := 1,
    side := "BUY", quantity := 1, price := none, status := "PENDING",
    filled_quantity := none, average_fill_price := none,
    submitted_at := 3, filled_at_set := false, cancelled_at_set := false }

/-- Store for the no-price scenario: market order, provider down. -/
def dbNoPrice : DB :=
  { accounts := [acct100], instruments := [instAAPL], positions := [],
    orders := [oBuyNoLimit] }

/-- Pending market SELL order with no limit price. -/
def oSellNoLimit : Order :=
  { id := 42, account_id := "acct-1", symbol_id := 1, strategy_id := 1,
    side := "SELL", quantity := 1, price := none, status := "PENDING",
    filled_quantity := none, average_fill_price := none,
    submitted_at := 3, filled_at_set := false, cancelled_at_set := false }

/-- Store for the no-price SELL scenario: market order, provider down. -/
def dbNoPriceSell : DB :=
  { accounts := [acct100], instruments := [instAAPL], positions := [],
    orders := [oSellNoLimit] }

/-- C4 counterexample: a PENDING order with no limit price whose symbol
gets no data from the provider is not left `PENDING` — the matcher
records it `FILLED` with `average_fill_price` equal to the hard-coded
fallback 100.0. -/
theorem claim4_counterexample :
    order_status (process_order dbNoPriceSell quoteEmpty oSellNoLimit).1 42 =
      some "FILLED" ∧
    order_avg_fill (process_order dbNoPriceSell quoteEmpty oSellNoLimit).1 42 =
      some (some 100) := by decide

/-- C4 (amended): the fill price is the order's limit price when one is
provided (and nonzero), else the provider's current market price when
available, else the hard-coded fallback 100.0; in the
no-limit-price/no-data case the order is still filled (at 100.0) rather
than left `PENDING`. -/
theorem claim4_fill_price_resolution (db : DB) (quote : Quote) (o : Order) :
    (∀ p, o.price = some p → p ≠ 0 → order_fill_price db quote o = p) ∧
    (∀ inst mp, o.price = none →
      db.instruments.find? (fun i => i.id == o.symbol_id) = some inst →
      quote inst.symbol = some mp → order_fill_price db quote o = mp) ∧
    (∀ inst, o.price = none →
      db.instruments.find? (fun i => i.id == o.symbol_id) = some inst →
      quote inst.symbol = none → order_fill_price db quote o = 100) ∧
    (∀ acct, db.orders.find? (fun x => x.id == o.id) = some o →
      o.side = "BUY" → order_fill_price db quote o = 100 →
      db.accounts.find? (fun a => a.account_id == o.account_id) = some acct →
      ¬ acct.cash_balance < o.quantity * 100 →
      (process_order db quote o).2 = true ∧
      order_status (process_order db quote o).1 o.id = some "FILLED" ∧
      order_avg_fill (process_order db quote o).1 o.id = some (some 100)) := by
  refine ⟨?_, ?_, ?_, ?_⟩
  · intro p hp hne
    unfold order_fill_price
    rw [hp]
    exact if_neg hne
  · intro inst mp hp hinst hq
    unfold order_fill_price get_current_market_price
    rw [hp]
    dsimp only
    rw [hinst]
    dsimp only
    rw [hq]
  · intro inst hp hinst hq
    unfold order_fill_price get_current_market_price
    rw [hp]
    dsimp only
    rw [hinst]
    dsimp only
    rw [hq]
  · intro acct hfind hside hfp hacct hcash
    have hfields := applyStatusUpdate_fields "FILLED" (some o.quantity)
      (some (order_fill_price db quote o)) o
    rw [process_order_buy db quote o hfind hside]
    have hres : resolved_fill_price (applyStatusUpdate "FILLED" (some o.quantity)
        (some (order_fill_price db quote o)) o) = some 100 := by
      unfold resolved_fill_price
      rw [applyStatusUpdate_afp, hfp]
      simp
    have hacct1 :
        (DB.accounts { db with orders := (updateFirst (fun x => x.id == o.id)
            (applyStatusUpdate "FILLED" (some o.quantity)
              (some (order_fill_price db quote o))) db.orders) }).find?
          (fun a => a.account_id ==
            (applyStatusUpdate "FILLED" (some o.quantity)
              (some (order_fill_price db quote o)) o).account_id) = some acct := by
      rw [hfields.2.2.2.2.2.1]
      exact hacct
    have hcash1 : ¬ acct.cash_balance <
        (applyStatusUpdate "FILLED" (some o.quantity)
          (some (order_fill_price db quote o)) o).quantity * 100 := by
      rw [hfields.2.2.2.1]; exact hcash
    have h := buy_sufficient_orders _ _ acct 100 hres hacct1 hcash1
    refine ⟨h.1, ?_, ?_⟩
    · unfold order_status
      rw [h.2]
      rw [find?_updateFirst _ _ db.orders o hfind (by rw [hfields.1]; simp)]
      rw [Option.map_some']
      rw [hfields.2.1]
    · unfold order_avg_fill
      rw [h.2]
      rw [find?_updateFirst _ _ db.orders o hfind (by rw [hfields.1]; simp)]
      rw [Option.map_some']
      rw [applyStatusUpdate_afp, hfp]

/-- C4 witness: the amended theorem applied to the concrete no-data
store, with a quote function and limit price both absent. -/
theorem claim4_witness :
    (process_order dbNoPrice quoteEmpty oBuyNoLimit).2 = true ∧
    order_status (process_order dbNoPrice quoteEmpty oBuyNoLimit).1
      oBuyNoLimit.id = some "FILLED" ∧
    order_avg_fill (process_order dbNoPrice quoteEmpty oBuyNoLimit).1
      oBuyNoLimit.id = some (some 100) :=
  (claim4_fill_price_resolution dbNoPrice quoteEmpty oBuyNoLimit).2.2.2 acct100
    (by decide) (by decide) (by decide) (by decide)
    (by norm_num [acct100, oBuyNoLimit])

/-- Default strategy parameters, as merged by
`_parse_strategy_parameters` for a strategy with no fundamental or
valuation keys. -/
def paramsDefault : StrategyParams :=
  { min_volume := 1000000, rsi_oversold := 30, rsi_overbought := 70,
    min_quality_score := 70, underlying_quality_required := false,
    has_valuation_param := false, has_fundamental_params := false,
    max_position_size_percent := 10, max_positions := 10 }

/-- A SELL decision at price 110 (score −3). -/
def sigSell110 : SignalR :=
  { action := "SELL", reason := "RSI overbought, Bearish price trend",
    price := some 110, confidence := none, signal_score := some (-3) }

/-- Position of 8 shares at entry 90. -/
def pos8at90 : Position :=
  { account_id := "acct-1", symbol_id := 1, quantity := 8,
    average_entry_price := 90 }

/-- C6 counterexample: a concrete `_execute_sell_order` run.  The
durable-write trace is the order creation followed by the signal
creation: the order row is persisted first, so no signal write precedes
the order write — the spec's ordering (signal before order) does not
hold. -/
theorem claim6_counterexample :
    execute_sell_order acct100 7 instAAPL sigSell110 paramsDefault
        [("AAPL", pos8at90)] =
      [BotEvent.orderCreated "acct-1" 1 7 "SELL" 8 110,
       BotEvent.signalCreated 1 7 "SELL" 110] ∧
    signal_precedes_order (execute_sell_order acct100 7 instAAPL sigSell110
      paramsDefault [("AAPL", pos8at90)]) = false ∧
    has_order_event (execute_sell_order acct100 7 instAAPL sigSell110
      paramsDefault [("AAPL", pos8at90)]) = true := by decide

/-- C6 (amended): both order-emitting paths of the trading bot persist
the order row first and the `TradingSignal` row immediately after it
(matching instrument and strategy), so a signal write never precedes
its order write. -/
theorem claim6_order_then_signal (account : Account) (strategy_id : Nat)
    (instrument : Instrument) (signal : SignalR) (params : StrategyParams)
    (current_positions : List (String × Position)) :
    (execute_buy_order account strategy_id instrument signal params
        current_positions = [] ∨
      (∃ q : ℚ, execute_buy_order account strategy_id instrument signal params
          current_positions =
        [BotEvent.orderCreated account.account_id instrument.id strategy_id
           "BUY" q (signal.price.getD 0),
         BotEvent.signalCreated instrument.id strategy_id "BUY"
           (signal.price.getD 0)])) ∧
    (execute_sell_order account strategy_id instrument signal params
        current_positions = [] ∨
      (∃ q : ℚ, execute_sell_order account strategy_id instrument signal params
          current_positions =
        [BotEvent.orderCreated account.account_id instrument.id strategy_id
           "SELL" q (signal.price.getD 0),
         BotEvent.signalCreated instrument.id strategy_id "SELL"
           (signal.price.getD 0)])) ∧
    signal_precedes_order (execute_buy_order account strategy_id instrument
      signal params current_positions) = false ∧
    signal_precedes_order (execute_sell_order account strategy_id instrument
      signal params current_positions) = false := by
  unfold execute_buy_order execute_sell_order
  cases h : dictGet current_positions instrument.symbol with
  | some existing =>
      dsimp only
      refine ⟨Or.inl rfl, ?_, rfl, ?_⟩
      · by_cases hq : existing.quantity ≤ 0
        · rw [if_pos hq]; exact Or.inl rfl
        · rw [if_neg hq]; exact Or.inr ⟨existing.quantity, rfl⟩
      · by_cases hq : existing.quantity ≤ 0
        · rw [if_pos hq]; rfl
        · rw [if_neg hq]; rfl
  | none =>
      dsimp only
      refine ⟨?_, Or.inl rfl, ?_, rfl⟩
      · by_cases hs : calculate_position_size account (signal.price.getD 0)
            params ≤ 0
        · rw [if_pos hs]; exact Or.inl rfl
        · rw [if_neg hs]
          by_cases hm : params.max_positions ≤ current_positions.length
          · rw [if_pos hm]; exact Or.inl rfl
          · rw [if_neg hm]
            exact Or.inr ⟨((calculate_position_size account
              (signal.price.getD 0) params : ℤ) : ℚ), rfl⟩
      · by_cases hs : calculate_position_size account (signal.price.getD 0)
            params ≤ 0
        · rw [if_pos hs]; rfl
        · rw [if_neg hs]
          by_cases hm : params.max_positions ≤ current_positions.length
          · rw [if_pos hm]; rfl
          · rw [if_neg hm]; rfl

/-- Daily bar whose volume is exactly the default `min_volume`. -/
def barAtMinVolume : MarketBar := { close := 150, volume := 1000000 }

/-- Indicators giving RSI 20 (below the oversold threshold 30) and a
bullish trend: composite score 2 + 1 = 3. -/
def indOversoldBullish : TechIndicators :=
  { rsi := some 20, price_trend := some "BULLISH", is_overbought := some false,
    is_oversold := none, is_price_near_support := none,
    is_price_near_resistance := none }

/-- C8 counterexample: with volume exactly equal to `min_volume`
(1,000,000) the low-volume filter does not trigger — the strict `<`
comparison is false — and a composite score of 3 produces a BUY signal,
not the claimed HOLD with reason "Low volume". -/
theorem claim8_counterexample :
    barAtMinVolume.volume = paramsDefault.min_volume ∧
    (generate_trading_signal barAtMinVolume indOversoldBullish noFundamentals
      paramsDefault).action = "BUY" ∧
    (generate_trading_signal barAtMinVolume indOversoldBullish noFundamentals
      paramsDefault).signal_score = some 3 := by decide

/-- C8 (amended): the low-volume filter uses strict `<`, so at volume
greater than or equal to `min_volume` (equality included) it does not
trigger; the emitted action is then decided purely by the composite
score — BUY iff score ≥ 3, SELL iff score ≤ −3, HOLD otherwise. -/
theorem claim8_volume_filter_strict (md : MarketBar) (ind : TechIndicators)
    (fundRaw : FundamentalParams) (params : StrategyParams)
    (hvol : params.min_volume ≤ md.volume) :
    ((generate_trading_signal md ind fundRaw params).action = "BUY" ↔
      3 ≤ signal_score ind
        (if params.has_fundamental_params then fundRaw else noFundamentals)
        params) ∧
    ((generate_trading_signal md ind fundRaw params).action = "SELL" ↔
      signal_score ind
        (if params.has_fundamental_params then fundRaw else noFundamentals)
        params ≤ -3) ∧
    ((generate_trading_signal md ind fundRaw params).action = "HOLD" ↔
      (-3 < signal_score ind
        (if params.has_fundamental_params then fundRaw else noFundamentals)
        params ∧
       signal_score ind
        (if params.has_fundamental_params then fundRaw else noFundamentals)
        params < 3)) := by
  have hnlt : ¬ md.volume < params.min_volume := not_lt.mpr hvol
  unfold generate_trading_signal
  rw [if_neg hnlt]
  dsimp only
  by_cases h3 : 3 ≤ signal_score ind
      (if params.has_fundamental_params then fundRaw else noFundamentals) params
  · rw [if_pos h3]
    exact ⟨⟨fun _ => h3, fun _ => rfl⟩,
      ⟨fun h => by simp at h, fun h => absurd h (by omega)⟩,
      ⟨fun h => by simp at h, fun h => absurd h3 (by omega)⟩⟩
  · rw [if_neg h3]
    by_cases hm3 : signal_score ind
        (if params.has_fundamental_params then fundRaw else noFundamentals)
        params ≤ -3
    · rw [if_pos hm3]
      exact ⟨⟨fun h => by simp at h, fun h => absurd h3 (by omega)⟩,
        ⟨fun _ => hm3, fun _ => rfl⟩,
        ⟨fun h => by simp at h, fun h => absurd hm3 (by omega)⟩⟩
    · rw [if_neg hm3]
      exact ⟨⟨fun h => by simp at h, fun h => absurd h3 (by omega)⟩,
        ⟨fun h => by simp at h, fun h => absurd hm3 (by omega)⟩,
        ⟨fun _ => by omega, fun _ => rfl⟩⟩

/-- C8 witness: the amended theorem applied at a bar whose volume is
exactly `min_volume`; with score 3 the signal is BUY. -/
theorem claim8_witness :
    ((generate_trading_signal barAtMinVolume indOversoldBullish noFundamentals
        paramsDefault).action = "BUY" ↔
      3 ≤ signal_score indOversoldBullish
        (if paramsDefault.has_fundamental_params then noFundamentals
         else noFundamentals) paramsDefault) ∧
    ((generate_trading_signal barAtMinVolume indOversoldBullish noFundamentals
        paramsDefault).action = "SELL" ↔
      signal_score indOversoldBullish
        (if paramsDefault.has_fundamental_params then noFundamentals
         else noFundamentals) paramsDefault ≤ -3) ∧
    ((generate_trading_signal barAtMinVolume indOversoldBullish noFundamentals
        paramsDefault).action = "HOLD" ↔
      (-3 < signal_score indOversoldBullish
        (if paramsDefault.has_fundamental_params then noFundamentals
         else noFundamentals) paramsDefault ∧
       signal_score indOversoldBullish
        (if paramsDefault.has_fundamental_params then noFundamentals
         else noFundamentals) paramsDefault < 3)) :=
  claim8_volume_filter_strict barAtMinVolume indOversoldBullish noFundamentals
    paramsDefault (by decide)

theorem gap_all_positive (db : DB) (account_id : String) :
    ∀ kv ∈ get_account_positions db account_id, 0 < kv.2.quantity := by
  unfold get_account_positions
  have main : ∀ (rows : List Position) (acc : List (String × Position)),
      (∀ p ∈ rows, 0 < p.quantity) →
      (∀ kv ∈ acc, 0 < kv.2.quantity) →
      ∀ kv ∈ rows.foldl
        (fun acc p =>
          match db.instruments.find? (fun i => i.id == p.symbol_id) with
          | some inst => dictUpsert acc inst.symbol p
          | none => acc) acc,
        0 < kv.2.quantity := by
    intro rows
    induction rows with
    | nil => intro acc _ hacc kv hkv; exact hacc kv hkv
    | cons p ps ih =>
        intro acc hrows hacc kv hkv
        rw [List.foldl_cons] at hkv
        refine ih _ (fun q hq => hrows q (List.mem_cons_of_mem _ hq)) ?_ kv hkv
        intro kv' hkv'
        cases hfi : db.instruments.find? (fun i => i.id == p.symbol_id) with
        | none => rw [hfi] at hkv'; exact hacc kv' hkv'
        | some inst =>
            rw [hfi] at hkv'
            rcases mem_dictUpsert _ _ _ _ hkv' with h | h
            · exact hacc kv' h
            · rw [h]; exact hrows p (List.mem_cons_self _ _)
  intro kv hkv
  refine main _ [] ?_ (by simp) kv hkv
  intro p hp
  have h := (List.mem_filter.mp hp).2
  rw [Bool.and_eq_true] at h
  exact of_decide_eq_true h.2

theorem gap_empty_of_nonpos (db : DB) (account_id : String)
    (hz : ∀ p ∈ db.positions, p.account_id = account_id → p.quantity ≤ 0) :
    get_account_positions db account_id = [] := by
  unfold get_account_positions
  have hfil : db.positions.filter
      (fun p => p.account_id == account_id && decide (0 < p.quantity)) = [] := by
    rw [List.filter_eq_nil_iff]
    intro p hp
    rw [Bool.and_eq_true]
    rintro ⟨h1, h2⟩
    have hq := of_decide_eq_true h2
    have ha : p.account_id = account_id := by simpa using h1
    exact absurd hq (not_lt.mpr (hz p hp ha))
  rw [hfil]
  rfl

/-- C10: the trading bot's per-account position index keeps only
positions with strictly positive quantity — every indexed entry has
`quantity > 0`, an account whose positions are all of non-positive
quantity gets an empty index, and consequently a retained zero-quantity
position neither makes `_execute_buy_order` skip the symbol as "already
held" nor counts toward the `max_positions` limit: the BUY order is
still emitted. -/
theorem claim10_position_index_positive (db : DB) (account_id : String) :
    (∀ sym p, dictGet (get_account_positions db account_id) sym = some p →
      0 < p.quantity) ∧
    ((∀ p ∈ db.positions, p.account_id = account_id → p.quantity ≤ 0) →
      get_account_positions db account_id = []) ∧
    (∀ (account : Account) (strategy_id : Nat) (instrument : Instrument)
        (signal : SignalR) (params : StrategyParams),
      (∀ p ∈ db.positions, p.account_id = account_id → p.quantity ≤ 0) →
      0 < calculate_position_size account (signal.price.getD 0) params →
      0 < params.max_positions →
      execute_buy_order account strategy_id instrument signal params
          (get_account_positions db account_id) =
        [BotEvent.orderCreated account.account_id instrument.id strategy_id
           "BUY" ((calculate_position_size account (signal.price.getD 0)
             params : ℤ) : ℚ) (signal.price.getD 0),
         BotEvent.signalCreated instrument.id strategy_id "BUY"
           (signal.price.getD 0)]) := by
  refine ⟨?_, gap_empty_of_nonpos db account_id, ?_⟩
  · intro sym p hget
    unfold dictGet at hget
    rcases Option.map_eq_some'.mp hget with ⟨kv, hkv, hp⟩
    have hmem := List.mem_of_find?_eq_some hkv
    have := gap_all_positive db account_id kv hmem
    rw [hp] at this
    exact this
  · intro account strategy_id instrument signal params hz hsize hmax
    rw [gap_empty_of_nonpos db account_id hz]
    unfold execute_buy_order
    have hget : dictGet ([] : List (String × Position)) instrument.symbol
        = none := rfl
    rw [hget]
    dsimp only
    rw [if_neg (by omega : ¬ calculate_position_size account
      (signal.price.getD 0) params ≤ 0)]
    rw [if_neg (by simp; omega : ¬ params.max_positions ≤
      List.length ([] : List (String × Position)))]

/-- The retained zero-quantity position of the witness scenario. -/
def pos0at90 : Position :=
  { account_id := "acct-1", symbol_id := 1, quantity := 0,
    average_entry_price := 90 }

/-- Store holding only the zero-quantity position. -/
def dbZeroPos : DB :=
  { accounts := [acct100], instruments := [instAAPL],
    positions := [pos0at90], orders := [] }

/-- A BUY decision at price 1. -/
def sigBuy1 : SignalR :=
  { action := "BUY", reason := "RSI oversold, Bullish price trend",
    price := some 1, confidence := none, signal_score := some 3 }

/-- C10 witness: the theorem applied to the concrete store with a
retained zero-quantity position for the traded symbol — the index is
empty and `_execute_buy_order` still emits the order (10 shares:
cash 100, `max_position_size_percent` 10, price 1). -/
theorem claim10_witness :
    execute_buy_order acct100 7 instAAPL sigBuy1 paramsDefault
        (get_account_positions dbZeroPos "acct-1") =
      [BotEvent.orderCreated "acct-1" 1 7 "BUY"
         ((calculate_position_size acct100 (sigBuy1.price.getD 0)
           paramsDefault : ℤ) : ℚ) (sigBuy1.price.getD 0),
       BotEvent.signalCreated 1 7 "BUY" (sigBuy1.price.getD 0)] :=
  (claim10_position_index_positive dbZeroPos "acct-1").2.2 acct100 7 instAAPL
    sigBuy1 paramsDefault (by decide)
    (by norm_num [calculate_position_size, pyInt, acct100, paramsDefault,
      sigBuy1])
    (by decide)

/-- C9: Memorial Day 2021 fell on May 31 — a year in which May 31
itself is a Monday, hence the last Monday of May.  The helper
`_get_last_weekday(2021, 5, 0)` forces `days_to_subtract` from 0 to 7
and returns May 24 instead, so May 31 is not in the holiday set and
`is_market_open` reports the market open at 10:00 ET on Memorial Day.
For contrast, in 2020 (Memorial Day May 25, May 31 a Sunday) the
holiday is honoured. -/
theorem claim9_memorial_day_monday_open :
    weekday 2021 5 31 = 0 ∧
    get_last_weekday 2021 5 0 = toOrdinal 2021 5 24 ∧
    is_market_holiday 2021 5 31 = false ∧
    is_market_open 2021 5 31 10 0 = true ∧
    weekday 2020 5 25 = 0 ∧
    is_market_open 2020 5 25 10 0 = false := by decide

end PaperProfit
